import Mathlib

/-!
Verification development for the brand-pattern-generator repository
(single-file React/TypeScript component, embedded shallowly).

JavaScript numbers are modeled as exact rationals, extended with NaN and
signed infinities (the JsNum type) on the paths where the dimension code
can actually produce them; positions, rotations and option fields, which
the code only ever computes from finite inputs by field arithmetic, are
plain rationals.  Browser primitives (DOMParser, parseFloat, Number,
FileReader, image decoding, Math.random) are oracles: their results are
carried as explicit inputs of the embedded functions.  Each call of
Math.random inside iteration i of the layout loop is one value of a
RandomSource at index i, constrained to lie in the interval from 0
inclusive to 1 exclusive exactly as Math.random is.
-/

namespace BrandPattern

/-- JavaScript number values reachable in the dimension-handling code:
a finite value, NaN, or a signed infinity (inf true is positive infinity).
Signed zero is not modeled; no embedded code path distinguishes it. -/
inductive JsNum where
  | num : ℚ → JsNum
  | nan : JsNum
  | inf : Bool → JsNum
  deriving DecidableEq

/-- JavaScript falsiness of a number: NaN and 0 are falsy (undefined is
modeled as NaN where it occurs, and is likewise falsy). -/
def jsFalsy : JsNum → Bool
  | .nan => true
  | .num q => decide (q = 0)
  | .inf _ => false

/-- The JavaScript expression a or-else b on numbers: b when a is falsy. -/
def jsOr (a b : JsNum) : JsNum := if jsFalsy a then b else a

/-- JavaScript unary minus on numbers. -/
def jsNeg : JsNum → JsNum
  | .num q => .num (-q)
  | .nan => .nan
  | .inf s => .inf (!s)

/-- JavaScript Math.max on two numbers: NaN-propagating, infinity-aware. -/
def jsMax : JsNum → JsNum → JsNum
  | .nan, _ => .nan
  | _, .nan => .nan
  | .inf true, _ => .inf true
  | _, .inf true => .inf true
  | .inf false, x => x
  | x, .inf false => x
  | .num a, .num b => .num (max a b)

/-- JavaScript division on numbers: NaN propagates, a nonzero finite value
divided by zero gives a signed infinity, zero by zero gives NaN. -/
def jsDiv : JsNum → JsNum → JsNum
  | .nan, _ => .nan
  | _, .nan => .nan
  | .inf _, .inf _ => .nan
  | .inf s, .num b => if b < 0 then .inf (!s) else .inf s
  | .num _, .inf _ => .num 0
  | .num a, .num b =>
      if b = 0 then (if a = 0 then .nan else if 0 < a then .inf true else .inf false)
      else .num (a / b)

/-- JavaScript multiplication on numbers: NaN propagates, infinity times
zero is NaN, otherwise infinities keep the product sign. -/
def jsMul : JsNum → JsNum → JsNum
  | .nan, _ => .nan
  | _, .nan => .nan
  | .inf s, .inf t => .inf (s == t)
  | .inf s, .num b => if b = 0 then .nan else .inf (s == decide (0 < b))
  | .num a, .inf t => if a = 0 then .nan else .inf (t == decide (0 < a))
  | .num a, .num b => .num (a * b)

/-- Strict positivity of a JavaScript number (NaN is not positive). -/
def jsIsPos : JsNum → Prop
  | .num q => 0 < q
  | .nan => False
  | .inf s => s = true

instance : DecidablePred jsIsPos := fun j =>
  match j with
  | .num q => inferInstanceAs (Decidable (0 < q))
  | .nan => inferInstanceAs (Decidable False)
  | .inf s => inferInstanceAs (Decidable (s = true))

/-- Component i of a split-and-Number-mapped attribute list; a missing
component is JavaScript undefined, which behaves like NaN in every use the
source makes of it (falsy in or-else, NaN-propagating in arithmetic). -/
def nthNum (l : List JsNum) (i : ℕ) : JsNum := (l.get? i).getD .nan

/-- The two accepted asset kinds of the source (type field of ShapeAsset). -/
inductive AssetType where
  | svg : AssetType
  | png : AssetType
  deriving DecidableEq

/-- The svg root element of a parsed markup document, as the source
observes it through getAttribute and innerHTML.  viewBoxAttr is the raw
viewBox attribute (none when the attribute is absent or empty, both falsy
in the source's truthiness test); viewBoxNums is that raw string split on
spaces with each token passed through Number (the platform parsing step,
carried as an oracle).  widthAttr and heightAttr are the parseFloat
results of the width and height attributes after the source's or-else
with the string 100: none models an absent or empty attribute (which the
or-else replaces by 100), some v is the parseFloat value of a present
attribute, possibly NaN. -/
structure SVGElem where
  viewBoxAttr : Option String
  viewBoxNums : List JsNum
  widthAttr : Option JsNum
  heightAttr : Option JsNum
  innerHTML : String
  deriving DecidableEq

/-- A normalized uploaded shape (ShapeAsset in the source).  svgContent
models the stored markup string: none when it is undefined (png assets) or
empty (falsy); some r when it is a nonempty string whose parse result is
r, where r itself is none when the markup has no svg root element.  The
opaque File handle of the source is dropped: no embedded code reads it. -/
structure ShapeAsset where
  id : String
  type : AssetType
  dataUrl : String
  svgContent : Option (Option SVGElem)
  width : JsNum
  height : JsNum
  deriving DecidableEq

/-- Generation parameters (PatternOptions in the source).  shapeCount is
an integer: the reference UI always supplies a positive one, but the
algorithm itself is also specified on non-positive counts. -/
structure PatternOptions where
  shapeCount : ℤ
  offsetIntensity : ℚ
  enableRotation : Bool
  canvasSize : ℚ
  deriving DecidableEq

/-- One placed instance (PlacedShape in the source). -/
structure PlacedShape where
  asset : ShapeAsset
  x : ℚ
  y : ℚ
  rotation : ℚ
  scale : JsNum
  deriving DecidableEq

/-- Out-of-range list access placeholder.  JavaScript array indexing in the
layout loop is always in range (the random index is below the length), so
no embedded theorem depends on this value. -/
def defaultAsset : ShapeAsset :=
  { id := "", type := .png, dataUrl := "", svgContent := none
    width := .num 100, height := .num 100 }

/-- Oracle for the Math.random calls of one layout invocation: the values
drawn in iteration i for asset choice, x jitter, y jitter and rotation. -/
structure RandomSource where
  pick : ℕ → ℚ
  offX : ℕ → ℚ
  offY : ℕ → ℚ
  rot : ℕ → ℚ

/-- Math.random always returns a value in the interval from 0 inclusive
to 1 exclusive; a RandomSource is in range when all its draws do. -/
def RandomSource.InRange (r : RandomSource) : Prop :=
  ∀ i, (0 ≤ r.pick i ∧ r.pick i < 1) ∧ (0 ≤ r.offX i ∧ r.offX i < 1) ∧
    (0 ≤ r.offY i ∧ r.offY i < 1) ∧ (0 ≤ r.rot i ∧ r.rot i < 1)

/-- Math.ceil of Math.sqrt of a natural number, computed exactly. -/
def ceilSqrt (n : ℕ) : ℕ :=
  if Nat.sqrt n * Nat.sqrt n = n then Nat.sqrt n else Nat.sqrt n + 1

/-- gridSize of the layout loop: the ceiling of the square root of the
shape count (a non-positive count never reaches a grid computation whose
value matters, since the loop body does not run). -/
def gridSizeOf (opts : PatternOptions) : ℕ := ceilSqrt opts.shapeCount.toNat

/-- cellSize of the layout loop: canvas size divided by the grid size. -/
def cellSizeOf (opts : PatternOptions) : ℚ :=
  opts.canvasSize / (gridSizeOf opts : ℚ)

/-- Base x center of the grid cell of loop index i: col times cellSize
plus half a cell, with col the index modulo the grid size. -/
def baseCenterX (opts : PatternOptions) (i : ℕ) : ℚ :=
  ((i % gridSizeOf opts : ℕ) : ℚ) * cellSizeOf opts + cellSizeOf opts / 2

/-- Base y center of the grid cell of loop index i: row times cellSize
plus half a cell, with row the index divided by the grid size. -/
def baseCenterY (opts : PatternOptions) (i : ℕ) : ℚ :=
  ((i / gridSizeOf opts : ℕ) : ℚ) * cellSizeOf opts + cellSizeOf opts / 2

/-- maxOffset of the layout loop: cellSize times the offset intensity. -/
def maxOffsetOf (opts : PatternOptions) : ℚ :=
  cellSizeOf opts * opts.offsetIntensity

/-- One iteration of the layout loop of generatePatternLayout: pick a
random asset, jitter the cell center, roll the rotation, and scale the
larger intrinsic dimension to 0.6 of a cell. -/
def placeShape (shapes : List ShapeAsset) (opts : PatternOptions)
    (r : RandomSource) (i : ℕ) : PlacedShape :=
  let asset := shapes.getD (Int.toNat ⌊r.pick i * (shapes.length : ℚ)⌋) defaultAsset
  let x := baseCenterX opts i + (r.offX i - 1/2) * maxOffsetOf opts
  let y := baseCenterY opts i + (r.offY i - 1/2) * maxOffsetOf opts
  let rotation := if opts.enableRotation then r.rot i * 360 else 0
  let maxDim := jsMax asset.width asset.height
  let scale := jsDiv (JsNum.num (cellSizeOf opts * (3/5))) maxDim
  { asset := asset, x := x, y := y, rotation := rotation, scale := scale }

/-- generatePatternLayout of the source: empty pool short-circuits to the
empty layout, otherwise the loop body runs once per index below the shape
count (never, when the count is not positive). -/
def generatePatternLayout (shapes : List ShapeAsset) (r : RandomSource)
    (opts : PatternOptions) : List PlacedShape :=
  if shapes.length = 0 then []
  else (List.range opts.shapeCount.toNat).map (placeShape shapes opts r)

/-- extractSVGDimensions of the source, applied to the parsed root element
of the markup (the DOMParser step is the oracle that produced the
argument).  A present viewBox attribute wins: its third and fourth
Number-parsed components are taken, each replaced by 100 when falsy
(zero, NaN, or missing).  Otherwise the parseFloat of the width and
height attributes is taken, an absent or empty attribute defaulting to
the string 100; a present unparseable attribute stays NaN.  With no root
element the result is 100 by 100. -/
def extractSVGDimensions (svg : Option SVGElem) : JsNum × JsNum :=
  match svg with
  | some el =>
      match el.viewBoxAttr with
      | some _ =>
          (jsOr (nthNum el.viewBoxNums 2) (.num 100),
           jsOr (nthNum el.viewBoxNums 3) (.num 100))
      | none => (el.widthAttr.getD (.num 100), el.heightAttr.getD (.num 100))
  | none => (.num 100, .num 100)

/-- Substring test on character lists, the semantics of the JavaScript
String.prototype.includes call of loadShapes. -/
def hasSubstr (p : List Char) : List Char → Bool
  | [] => p.isEmpty
  | c :: rest => p.isPrefixOf (c :: rest) || hasSubstr p rest

/-- JavaScript s.includes(pat) on strings. -/
def strContains (s pat : String) : Bool := hasSubstr pat.data s.data

/-- One uploaded file as loadShapes observes it through the browser
oracles: its name, its declared media type, its data URL (FileReader
result), the parse of its text content when read as markup (none when the
text is empty and hence falsy; some none when it has no svg root; some
(some el) when the root is el), and the decoded natural pixel dimensions
when read as an image. -/
structure UploadFile where
  name : String
  fileType : String
  dataUrl : String
  svgText : Option (Option SVGElem)
  imgW : ℚ
  imgH : ℚ
  deriving DecidableEq

/-- Whether loadShapes accepts the file: its media type must contain svg
or png; anything else is alerted and skipped. -/
def supportedFile (f : UploadFile) : Bool :=
  strContains f.fileType "svg" || strContains f.fileType "png"

/-- The ShapeAsset that loadShapes builds from an accepted file at batch
index i, with now the Date.now value of the id template. -/
def normalizeAsset (now i : ℕ) (f : UploadFile) : ShapeAsset :=
  if strContains f.fileType "svg" then
    let dims := extractSVGDimensions (f.svgText.getD none)
    { id := "shape-" ++ Nat.repr now ++ "-" ++ Nat.repr i
      type := .svg, dataUrl := f.dataUrl, svgContent := f.svgText
      width := dims.1, height := dims.2 }
  else
    { id := "shape-" ++ Nat.repr now ++ "-" ++ Nat.repr i
      type := .png, dataUrl := f.dataUrl, svgContent := none
      width := .num f.imgW, height := .num f.imgH }

/-- Per-file outcome of loadShapes: none exactly when the file's media
type is unsupported and the file is skipped with an alert. -/
def normalizeFile (now i : ℕ) (f : UploadFile) : Option ShapeAsset :=
  if supportedFile f then some (normalizeAsset now i f) else none

/-- The loop of loadShapes from batch index i on: each accepted file
contributes its normalized asset in order, each rejected file contributes
an alert message instead. -/
def loadShapesAux (now : ℕ) : ℕ → List UploadFile → List ShapeAsset × List String
  | _, [] => ([], [])
  | i, f :: rest =>
      let r := loadShapesAux now (i + 1) rest
      match normalizeFile now i f with
      | some a => (a :: r.1, r.2)
      | none => (r.1, ("Unsupported file type: " ++ f.name) :: r.2)

/-- loadShapes of the source: processes the batch in order and appends the
successfully normalized assets to the existing pool; the second component
collects the user-visible alert messages raised along the way. -/
def loadShapes (now : ℕ) (files : List UploadFile) (pool : List ShapeAsset) :
    List ShapeAsset × List String :=
  (pool ++ (loadShapesAux now 0 files).1, (loadShapesAux now 0 files).2)

/-- The decimal digit character for a value below ten. -/
def digitChar (n : ℕ) : Char := Char.ofNat (48 + n)

/-- Decimal digit characters of a natural number, most significant first. -/
def natDigits (n : ℕ) : List Char :=
  if _h : n < 10 then [digitChar n]
  else natDigits (n / 10) ++ [digitChar (n % 10)]
decreasing_by exact Nat.div_lt_self (by omega) (by omega)

/-- Left-pad a digit list with zero characters to at least length d. -/
def padTo (d : ℕ) (l : List Char) : List Char :=
  List.replicate (d - l.length) '0' ++ l

/-- Digit list of the toFixed rendering of a rational at d decimals: the
absolute value is scaled by ten to the d, rounded half away from zero
(the tie rule of the toFixed specification), and padded so an integer
part exists. -/
def toFixedDigits (d : ℕ) (q : ℚ) : List Char :=
  padTo (d + 1) (natDigits (Int.toNat ⌊|q| * (10 : ℚ) ^ d + 1/2⌋))

/-- Number.prototype.toFixed on a finite value, for a positive digit
count d (the source only uses d equal to 2 and 4): sign of the input,
then the scaled digits split d places before the end. -/
def toFixedQ (d : ℕ) (q : ℚ) : String :=
  (if q < 0 then "-" else "") ++
    String.mk ((toFixedDigits d q).take ((toFixedDigits d q).length - d)) ++
    "." ++ String.mk ((toFixedDigits d q).drop ((toFixedDigits d q).length - d))

/-- Number.prototype.toFixed on a JavaScript number: non-finite values
print their names, finite values format through toFixedQ. -/
def jsToFixed (d : ℕ) : JsNum → String
  | .num q => toFixedQ d q
  | .nan => "NaN"
  | .inf true => "Infinity"
  | .inf false => "-Infinity"

/-- Decimal string of an integer. -/
def intStr (n : ℤ) : String :=
  (if n < 0 then "-" else "") ++ String.mk (natDigits n.natAbs)

/-- JavaScript default number-to-string conversion for a finite value
whose decimal expansion terminates (every value the embedded render paths
print): the shortest terminating expansion, integers without a point.
Values whose denominator divides no small power of ten (which no double
produces) fall back to an explicit fraction spelling. -/
def jsStrQ (q : ℚ) : String :=
  match (List.range 40).find? (fun k => decide ((q.den : ℤ) ∣ 10 ^ k)) with
  | some 0 => intStr q.num
  | some k =>
      let ds := padTo (k + 1) (natDigits (q.num.natAbs * 10 ^ k / q.den))
      (if q.num < 0 then "-" else "") ++
        String.mk (ds.take (ds.length - k)) ++ "." ++
        String.mk (ds.drop (ds.length - k))
  | none => intStr q.num ++ " over " ++ Nat.repr q.den

/-- JavaScript default number-to-string on a JsNum. -/
def jsStrNum : JsNum → String
  | .num q => jsStrQ q
  | .nan => "NaN"
  | .inf true => "Infinity"
  | .inf false => "-Infinity"

/-- Length of the digit run after the decimal point of a formatted
number: the characters from the end of the string back to the first
point. -/
def decimalsLen (s : String) : ℕ :=
  (s.data.reverse.takeWhile (fun c => c != '.')).length

/-- The dimensions used by renderToSVG for the final centering translate
of a placement: for an embedded vector asset with a (truthy) viewBox
attribute, the raw third and fourth Number-parsed components of that
attribute; for a vector asset without one, the components of the
fallback viewBox string built from the asset's intrinsic dimensions; for
every other placement, the asset's intrinsic dimensions. -/
def renderDims (p : PlacedShape) : JsNum × JsNum :=
  match p.asset.type, p.asset.svgContent with
  | .svg, some (some el) =>
      match el.viewBoxAttr with
      | some _ => (nthNum el.viewBoxNums 2, nthNum el.viewBoxNums 3)
      | none => (p.asset.width, p.asset.height)
  | _, _ => (p.asset.width, p.asset.height)

/-- The full transform attribute renderToSVG emits for a placement: the
transform template of the source (translate of x and y at two decimals,
rotate at two decimals, scale at four decimals) followed by the centering
translate by minus half the render dimensions. -/
def emittedTransformAttr (p : PlacedShape) : String :=
  "translate(" ++ toFixedQ 2 p.x ++ ", " ++ toFixedQ 2 p.y ++ ") rotate(" ++
    toFixedQ 2 p.rotation ++ ") scale(" ++ jsToFixed 4 p.scale ++ ")" ++
    " translate(" ++ jsStrNum (jsDiv (jsNeg (renderDims p).1) (.num 2)) ++
    ", " ++ jsStrNum (jsDiv (jsNeg (renderDims p).2) (.num 2)) ++ ")"

/-- The viewBox string renderToSVG gives the nested svg of an embedded
vector asset: the raw attribute when truthy, else the fallback built from
the intrinsic dimensions. -/
def renderViewBoxStr (p : PlacedShape) (el : SVGElem) : String :=
  match el.viewBoxAttr with
  | some s => s
  | none =>
      "0 0 " ++ jsStrNum p.asset.width ++ " " ++ jsStrNum p.asset.height

/-- The markup renderToSVG appends for one placement: a nested svg group
for a vector asset with truthy stored markup and an svg root, nothing at
all for one whose stored markup has no root, and an image element
otherwise. -/
def shapeMarkup (p : PlacedShape) : String :=
  match p.asset.type, p.asset.svgContent with
  | .svg, some r =>
      match r with
      | some el =>
          "  <g transform=\"" ++ emittedTransformAttr p ++ "\">\n    <svg viewBox=\"" ++
            renderViewBoxStr p el ++ "\" width=\"" ++ jsStrNum (renderDims p).1 ++
            "\" height=\"" ++ jsStrNum (renderDims p).2 ++ "\">\n      " ++
            el.innerHTML ++ "\n    </svg>\n  </g>\n"
      | none => ""
  | _, _ =>
      "  <image \n    href=\"" ++ p.asset.dataUrl ++ "\" \n    width=\"" ++
        jsStrNum p.asset.width ++ "\" \n    height=\"" ++ jsStrNum p.asset.height ++
        "\" \n    transform=\"" ++ emittedTransformAttr p ++ "\"\n  />\n"

/-- The document header renderToSVG starts from, for a given export size. -/
def svgHeader (size : ℚ) : String :=
  "<?xml version=\"1.0\" encoding=\"UTF-8\"?>\n<svg width=\"" ++ jsStrQ size ++
    "\" height=\"" ++ jsStrQ size ++ "\" viewBox=\"0 0 " ++ jsStrQ size ++ " " ++
    jsStrQ size ++ "\" xmlns=\"http://www.w3.org/2000/svg\" xmlns:xlink=\"http://www.w3.org/1999/xlink\">\n  <rect width=\"" ++
    jsStrQ size ++ "\" height=\"" ++ jsStrQ size ++ "\" fill=\"white\"/>\n"

/-- renderToSVG of the source: header, one markup block per placement in
sequence order, closing tag. -/
def renderToSVG (layout : List PlacedShape) (size : ℚ) : String :=
  svgHeader size ++ String.join (layout.map shapeMarkup) ++ "</svg>"

/-- Modelled from the spec, section 4.4: the transform of a placement
composes, in this exact order, a translate to the placement center, a
rotate by the rotation in degrees, a scale by the scale factor, and a
translate by minus half the placed asset's intrinsic width and height;
positions and rotation carry two decimals and the scale four. -/
def specTransformAttr (p : PlacedShape) : String :=
  "translate(" ++ toFixedQ 2 p.x ++ ", " ++ toFixedQ 2 p.y ++ ") rotate(" ++
    toFixedQ 2 p.rotation ++ ") scale(" ++ jsToFixed 4 p.scale ++ ")" ++
    " translate(" ++ jsStrNum (jsDiv (jsNeg p.asset.width) (.num 2)) ++
    ", " ++ jsStrNum (jsDiv (jsNeg p.asset.height) (.num 2)) ++ ")"

/-- Modelled from the spec, amended clause one of the extraction order:
one viewBox component resolved on its own: a present nonzero finite value
passes through, a zero or NaN (unparseable) or missing component falls
back to 100, an infinite value passes through. -/
def specViewBoxComp (l : List JsNum) (i : ℕ) : JsNum :=
  match l.get? i with
  | some (.num q) => if q = 0 then .num 100 else .num q
  | some .nan => .num 100
  | some (.inf b) => .inf b
  | none => .num 100

/-- Modelled from the spec, sections 4.1 and the amended reading of the
extraction order: clause one takes the third and fourth viewBox
components with falsy components replaced by 100; clause two parses the
explicit width and height attributes, an absent or empty one defaulting
to 100 and a present unparseable one staying NaN; clause three yields 100
by 100 when no root element exists. -/
def specExtractDims (svg : Option SVGElem) : JsNum × JsNum :=
  match svg with
  | none => (.num 100, .num 100)
  | some el =>
      match el.viewBoxAttr with
      | none =>
          (match el.widthAttr with
           | none => .num 100
           | some w => w,
           match el.heightAttr with
           | none => .num 100
           | some h => h)
      | some _ =>
          (specViewBoxComp el.viewBoxNums 2, specViewBoxComp el.viewBoxNums 3)

/-- A JavaScript number that the viewBox fallback turns positive: already
positive, or falsy (zero or NaN) and hence replaced by 100. -/
def goodJs (j : JsNum) : Prop := jsIsPos j ∨ j = .num 0 ∨ j = .nan

/-- Scope of the amended dimension invariant for one uploaded file: a
vector file's viewBox third and fourth components must be positive or
falsy, and its explicit width and height attributes, when present, must
parse to positive values; a raster file's decoded dimensions must be
positive. -/
def fileDimsOK (f : UploadFile) : Prop :=
  (strContains f.fileType "svg" = true →
    ∀ el, f.svgText.getD none = some el →
      (match el.viewBoxAttr with
       | some _ => goodJs (nthNum el.viewBoxNums 2) ∧ goodJs (nthNum el.viewBoxNums 3)
       | none =>
           (∀ w, el.widthAttr = some w → jsIsPos w) ∧
           (∀ h, el.heightAttr = some h → jsIsPos h))) ∧
  (strContains f.fileType "svg" = false → 0 < f.imgW ∧ 0 < f.imgH)

/-- A random source returning the same draw everywhere (a possible
behavior of Math.random over finitely many calls). -/
def constRand (q : ℚ) : RandomSource :=
  { pick := fun _ => q, offX := fun _ => q, offY := fun _ => q, rot := fun _ => q }

/-- A one-asset pool. -/
def onePool : List ShapeAsset := [defaultAsset]

/-- Placeholder placement for total list access in closed statements. -/
def defaultPlaced : PlacedShape :=
  { asset := defaultAsset, x := 0, y := 0, rotation := 0, scale := .num 1 }

/-- A 200 by 100 raster asset (scenario A of the spec). -/
def wAsset : ShapeAsset :=
  { id := "w", type := .png, dataUrl := "data:w", svgContent := none
    width := .num 200, height := .num 100 }

/-- Valid options: four shapes, no jitter, no rotation, canvas 400. -/
def wOpts4 : PatternOptions :=
  { shapeCount := 4, offsetIntensity := 0, enableRotation := false, canvasSize := 400 }

/-- Valid options with full jitter: one shape, intensity 1, canvas 2. -/
def c3Opts : PatternOptions :=
  { shapeCount := 1, offsetIntensity := 1, enableRotation := false, canvasSize := 2 }

/-- A finite placement of the raster asset. -/
def c2GoodPlace : PlacedShape :=
  { asset := wAsset, x := 1/2, y := 2, rotation := 30, scale := .num (3/5) }

/-- A parsed svg root whose viewBox third component is unparseable (its
Number parse is NaN): dimension extraction falls back to 100 for the
width, but rendering reuses the raw NaN component. -/
def c2BadElem : SVGElem :=
  { viewBoxAttr := some "0 0 x 50", viewBoxNums := [.num 0, .num 0, .nan, .num 50]
    widthAttr := none, heightAttr := none, innerHTML := "<circle/>" }

/-- The vector asset normalization builds from that root: intrinsic
dimensions 100 by 50. -/
def c2BadAsset : ShapeAsset :=
  { id := "b", type := .svg, dataUrl := "data:b", svgContent := some (some c2BadElem)
    width := .num 100, height := .num 50 }

/-- A placement of that vector asset. -/
def c2BadPlace : PlacedShape :=
  { asset := c2BadAsset, x := 1, y := 2, rotation := 0, scale := .num 1 }

/-- A parsed svg root with no viewBox and an explicit zero width
attribute. -/
def c4BadElem : SVGElem :=
  { viewBoxAttr := none, viewBoxNums := [], widthAttr := some (.num 0)
    heightAttr := some (.num 50), innerHTML := "" }

/-- A vector upload whose markup carries that root. -/
def c4BadFile : UploadFile :=
  { name := "logo.svg", fileType := "image/svg+xml", dataUrl := "data:zero"
    svgText := some (some c4BadElem), imgW := 0, imgH := 0 }

/-- A parsed svg root with no viewBox and an unparseable (NaN-parsing)
width attribute. -/
def c5BadElem : SVGElem :=
  { viewBoxAttr := none, viewBoxNums := [], widthAttr := some .nan
    heightAttr := none, innerHTML := "" }

/-- A well-formed vector root with viewBox 0 0 50 50. -/
def goodElem : SVGElem :=
  { viewBoxAttr := some "0 0 50 50"
    viewBoxNums := [.num 0, .num 0, .num 50, .num 50]
    widthAttr := none, heightAttr := none, innerHTML := "<rect/>" }

/-- A well-formed vector upload carrying that root. -/
def goodSvgFile : UploadFile :=
  { name := "ok.svg", fileType := "image/svg+xml", dataUrl := "data:ok"
    svgText := some (some goodElem), imgW := 0, imgH := 0 }

/-- An upload of an unsupported media kind. -/
def c9PlainFile : UploadFile :=
  { name := "notes.txt", fileType := "text/plain", dataUrl := "data:t"
    svgText := none, imgW := 0, imgH := 0 }

/-- A digit character is not a decimal point. -/
theorem digitChar_ne_dot (k : ℕ) (hk : k < 10) : (digitChar k != '.') = true := by
  interval_cases k <;> decide

/-- No character of a printed natural number is a decimal point. -/
theorem natDigits_ne_dot (n : ℕ) : ∀ c ∈ natDigits n, (c != '.') = true := by
  induction n using Nat.strong_induction_on with
  | _ n ih =>
    intro c hc
    unfold natDigits at hc
    by_cases h : n < 10
    · simp only [h, dif_pos, List.mem_singleton] at hc
      exact hc ▸ digitChar_ne_dot n h
    · simp only [h, dif_neg, not_false_iff, List.mem_append, List.mem_singleton] at hc
      rcases hc with hc | hc
      · exact ih (n / 10) (Nat.div_lt_self (by omega) (by omega)) c hc
      · exact hc ▸ digitChar_ne_dot (n % 10) (Nat.mod_lt n (by omega))

/-- The digit list behind a toFixed rendering is long enough to split. -/
theorem toFixedDigits_length (d : ℕ) (q : ℚ) : d + 1 ≤ (toFixedDigits d q).length := by
  unfold toFixedDigits padTo
  rw [List.length_append, List.length_replicate]
  omega

/-- No character of the digit list behind a toFixed rendering is a
decimal point. -/
theorem toFixedDigits_ne_dot (d : ℕ) (q : ℚ) :
    ∀ c ∈ toFixedDigits d q, (c != '.') = true := by
  intro c hc
  unfold toFixedDigits padTo at hc
  rw [List.mem_append] at hc
  rcases hc with hc | hc
  · rw [List.eq_of_mem_replicate hc]; decide
  · exact natDigits_ne_dot _ c hc

/-- takeWhile not-a-point over a list of non-points followed by a point
recovers exactly the prefix. -/
theorem takeWhile_until_dot (l r : List Char) (h : ∀ c ∈ l, (c != '.') = true) :
    (l ++ '.' :: r).takeWhile (fun c => c != '.') = l := by
  induction l with
  | nil => simp [List.takeWhile_cons]
  | cons c cs ih =>
      rw [List.cons_append, List.takeWhile_cons, if_pos (h c (by simp))]
      rw [ih fun x hx => h x (by simp [hx])]

/-- toFixed always renders exactly d characters after its decimal point. -/
theorem toFixedQ_decimalsLen (d : ℕ) (q : ℚ) : decimalsLen (toFixedQ d q) = d := by
  have hmk : ∀ l : List Char, (String.mk l).data = l := fun _ => rfl
  have hdot : ("." : String).data = ['.'] := rfl
  have hdata : (toFixedQ d q).data =
      (((if q < 0 then "-" else "") : String).data ++
        (toFixedDigits d q).take ((toFixedDigits d q).length - d)) ++
        '.' :: (toFixedDigits d q).drop ((toFixedDigits d q).length - d) := by
    unfold toFixedQ
    rw [String.data_append, String.data_append, String.data_append, hdot, hmk, hmk]
    simp [List.append_assoc]
  unfold decimalsLen
  rw [hdata, List.reverse_append, List.reverse_cons, List.append_assoc]
  simp only [List.singleton_append]
  rw [takeWhile_until_dot _ _ ?hpred]
  case hpred =>
    intro c hc
    rw [List.mem_reverse] at hc
    exact toFixedDigits_ne_dot d q c (List.drop_subset _ _ hc)
  rw [List.length_reverse, List.length_drop]
  have := toFixedDigits_length d q
  omega

/-- A constant random source with a draw in the unit interval is valid. -/
theorem constRand_inRange (q : ℚ) (h0 : 0 ≤ q) (h1 : q < 1) :
    (constRand q).InRange := by
  intro i
  exact ⟨⟨h0, h1⟩, ⟨h0, h1⟩, ⟨h0, h1⟩, ⟨h0, h1⟩⟩

/-- With a nonempty pool the layout is the mapped loop body. -/
theorem generatePatternLayout_of_ne (shapes : List ShapeAsset) (r : RandomSource)
    (opts : PatternOptions) (h : shapes.length ≠ 0) :
    generatePatternLayout shapes r opts =
      (List.range opts.shapeCount.toNat).map (placeShape shapes opts r) := by
  simp [generatePatternLayout, h]

/-- Every layout member is the loop body at some index below the count. -/
theorem mem_generatePatternLayout (shapes : List ShapeAsset) (r : RandomSource)
    (opts : PatternOptions) (p : PlacedShape)
    (hp : p ∈ generatePatternLayout shapes r opts) :
    shapes.length ≠ 0 ∧
      ∃ i, i < opts.shapeCount.toNat ∧ p = placeShape shapes opts r i := by
  unfold generatePatternLayout at hp
  by_cases h : shapes.length = 0
  · rw [if_pos h] at hp
    exact absurd hp (List.not_mem_nil p)
  · rw [if_neg h] at hp
    obtain ⟨i, hi, hpi⟩ := List.mem_map.mp hp
    exact ⟨h, i, List.mem_range.mp hi, hpi.symm⟩

/-- The i-th layout entry is the loop body at index i. -/
theorem generatePatternLayout_get (shapes : List ShapeAsset) (r : RandomSource)
    (opts : PatternOptions) (i : ℕ)
    (hi : i < (generatePatternLayout shapes r opts).length) :
    (generatePatternLayout shapes r opts).get ⟨i, hi⟩ = placeShape shapes opts r i := by
  by_cases h : shapes.length = 0
  · exfalso
    simp [generatePatternLayout, h] at hi
  · rw [List.get_eq_getElem]
    have hrw := generatePatternLayout_of_ne shapes r opts h
    simp only [hrw] at hi ⊢
    rw [List.getElem_map, List.getElem_range]

/-- A uniform draw below one indexes inside the pool. -/
theorem pick_index_lt (shapes : List ShapeAsset) (h : shapes.length ≠ 0)
    (q : ℚ) (_h0 : 0 ≤ q) (h1 : q < 1) :
    Int.toNat ⌊q * (shapes.length : ℚ)⌋ < shapes.length := by
  have hL : (0 : ℚ) < (shapes.length : ℚ) := by
    exact_mod_cast Nat.pos_of_ne_zero h
  have hlt : q * (shapes.length : ℚ) < (shapes.length : ℚ) := by
    calc q * (shapes.length : ℚ) < 1 * (shapes.length : ℚ) :=
          mul_lt_mul_of_pos_right h1 hL
      _ = (shapes.length : ℚ) := one_mul _
  have hfl : ⌊q * (shapes.length : ℚ)⌋ < (shapes.length : ℤ) :=
    Int.floor_lt.mpr (by exact_mod_cast hlt)
  exact (Int.toNat_lt' h).mpr hfl

/-- The asset the loop body picks is a pool element. -/
theorem placeShape_asset_mem (shapes : List ShapeAsset) (opts : PatternOptions)
    (r : RandomSource) (i : ℕ) (h : shapes.length ≠ 0) (hr : r.InRange) :
    (placeShape shapes opts r i).asset ∈ shapes := by
  unfold placeShape
  have hlt := pick_index_lt shapes h (r.pick i) (hr i).1.1 (hr i).1.2
  rw [List.getD_eq_getElem _ _ hlt]
  exact List.getElem_mem hlt

/-- A positive count gives a positive grid size. -/
theorem gridSizeOf_pos (opts : PatternOptions) (h : 0 < opts.shapeCount.toNat) :
    0 < gridSizeOf opts := by
  unfold gridSizeOf ceilSqrt
  split
  · rename_i heq
    rcases Nat.eq_zero_or_pos (Nat.sqrt opts.shapeCount.toNat) with h0 | h0
    · rw [h0] at heq
      omega
    · exact h0
  · omega

/-- A positive canvas and a positive count give a positive cell size. -/
theorem cellSizeOf_pos (opts : PatternOptions) (hcv : 0 < opts.canvasSize)
    (h : 0 < opts.shapeCount.toNat) : 0 < cellSizeOf opts := by
  unfold cellSizeOf
  have := gridSizeOf_pos opts h
  positivity

/-- The assets a batch produces are the per-index normalizations of its
accepted files, in batch order. -/
theorem loadShapesAux_fst (now k : ℕ) (files : List UploadFile) :
    (loadShapesAux now k files).1 =
      (List.enumFrom k files).filterMap (fun q => normalizeFile now q.1 q.2) := by
  induction files generalizing k with
  | nil => rfl
  | cons f rest ih =>
      rw [show List.enumFrom k (f :: rest) = (k, f) :: List.enumFrom (k + 1) rest from rfl]
      rw [List.filterMap_cons]
      cases hnf : normalizeFile now k f with
      | none => simp [loadShapesAux, hnf, ih]
      | some a => simp [loadShapesAux, hnf, ih]

/-- The alerts a batch raises are exactly one message per rejected file,
in batch order and independent of the starting index. -/
theorem loadShapesAux_snd (now k : ℕ) (files : List UploadFile) :
    (loadShapesAux now k files).2 =
      (files.filter (fun f => !supportedFile f)).map
        (fun f => "Unsupported file type: " ++ f.name) := by
  induction files generalizing k with
  | nil => rfl
  | cons f rest ih =>
      by_cases hs : supportedFile f
      · simp [loadShapesAux, normalizeFile, hs, ih]
      · simp [loadShapesAux, normalizeFile, hs, ih]

/-- C8: when the asset pool is empty, generatePatternLayout returns the
empty sequence (and in particular raises no error), whatever the options
and whatever values the random source would have produced. -/
theorem c8_empty_pool (r : RandomSource) (opts : PatternOptions) :
    generatePatternLayout [] r opts = [] := by
  simp [generatePatternLayout]

/-- C10: with a non-empty pool and a non-positive shapeCount the layout
loop never runs, so generatePatternLayout returns the empty sequence;
the count is neither clamped to one nor rejected. -/
theorem c10_nonpositive_count (shapes : List ShapeAsset) (r : RandomSource)
    (opts : PatternOptions) (_hne : shapes ≠ []) (hc : opts.shapeCount ≤ 0) :
    generatePatternLayout shapes r opts = [] := by
  unfold generatePatternLayout
  rw [Int.toNat_of_nonpos hc]
  simp

/-- C10 witness: a concrete non-empty pool and a concrete options record
with shapeCount minus three yield the empty layout. -/
theorem c10_witness :
    onePool ≠ [] ∧
      generatePatternLayout onePool (constRand 0)
        { shapeCount := -3, offsetIntensity := 1/2, enableRotation := true,
          canvasSize := 1080 } = [] :=
  ⟨by decide,
   c10_nonpositive_count onePool (constRand 0) _ (by decide) (by decide)⟩

/-- C1: for a non-empty pool, an in-range random source and valid options
(positive shapeCount, offsetIntensity in the unit interval, positive
canvasSize), generatePatternLayout returns exactly shapeCount placements
and every placement's asset is an element of the pool. -/
theorem c1_layout_count_and_membership (shapes : List ShapeAsset)
    (r : RandomSource) (opts : PatternOptions) (hne : shapes ≠ [])
    (hr : r.InRange) (hcount : 0 < opts.shapeCount)
    (_hoff0 : 0 ≤ opts.offsetIntensity) (_hoff1 : opts.offsetIntensity ≤ 1)
    (_hcv : 0 < opts.canvasSize) :
    ((generatePatternLayout shapes r opts).length : ℤ) = opts.shapeCount ∧
      ∀ p ∈ generatePatternLayout shapes r opts, p.asset ∈ shapes := by
  have hlen : shapes.length ≠ 0 := fun h => hne (List.length_eq_zero.mp h)
  constructor
  · rw [generatePatternLayout_of_ne shapes r opts hlen]
    rw [List.length_map, List.length_range]
    exact Int.toNat_of_nonneg hcount.le
  · intro p hp
    obtain ⟨_, i, _, hpi⟩ := mem_generatePatternLayout shapes r opts p hp
    rw [hpi]
    exact placeShape_asset_mem shapes opts r i hlen hr

/-- C1 witness: one asset, four shapes, canvas 400: the layout has length
four and its first placement's asset is the pool's asset. -/
theorem c1_witness :
    (onePool ≠ [] ∧ (0 : ℤ) < wOpts4.shapeCount) ∧
      ((generatePatternLayout onePool (constRand 0) wOpts4).length : ℤ) =
        wOpts4.shapeCount ∧
      (placeShape onePool wOpts4 (constRand 0) 0).asset ∈ onePool :=
  ⟨⟨by decide, by decide⟩,
   (c1_layout_count_and_membership onePool (constRand 0) wOpts4 (by decide)
      (constRand_inRange 0 (by norm_num) (by norm_num)) (by decide)
      (by norm_num [wOpts4]) (by norm_num [wOpts4]) (by norm_num [wOpts4])).1,
   (c1_layout_count_and_membership onePool (constRand 0) wOpts4 (by decide)
      (constRand_inRange 0 (by norm_num) (by norm_num)) (by decide)
      (by norm_num [wOpts4]) (by norm_num [wOpts4]) (by norm_num [wOpts4])).2
     (placeShape onePool wOpts4 (constRand 0) 0)
     (by rw [generatePatternLayout_of_ne _ _ _ (by decide)]
         exact List.mem_map.mpr ⟨0, List.mem_range.mpr (by decide), rfl⟩)⟩

/-- C7: every placement's rotation lies in the half-open interval from 0
to 360 degrees, and is exactly 0 for every placement whenever rotation is
disabled in the options. -/
theorem c7_rotation_range (shapes : List ShapeAsset) (r : RandomSource)
    (opts : PatternOptions) (hr : r.InRange) :
    ∀ p ∈ generatePatternLayout shapes r opts,
      (0 ≤ p.rotation ∧ p.rotation < 360) ∧
      (opts.enableRotation = false → p.rotation = 0) := by
  intro p hp
  obtain ⟨_, i, _, hpi⟩ := mem_generatePatternLayout shapes r opts p hp
  have hrot : p.rotation = if opts.enableRotation then r.rot i * 360 else 0 := by
    rw [hpi]; rfl
  by_cases hb : opts.enableRotation
  · rw [hrot, if_pos hb]
    refine ⟨⟨mul_nonneg (hr i).2.2.2.1 (by norm_num), ?_⟩,
      fun hf => absurd hb (by simp [hf])⟩
    calc r.rot i * 360 < 1 * 360 :=
          mul_lt_mul_of_pos_right (hr i).2.2.2.2 (by norm_num)
      _ = 360 := one_mul _
  · rw [hrot, if_neg hb]
    exact ⟨⟨le_refl 0, by norm_num⟩, fun _ => rfl⟩

/-- C7 witness: with rotation disabled, the first placement of a concrete
layout has rotation 0 inside the unit-interval bound. -/
theorem c7_witness :
    ((0 : ℚ) ≤ 1/2 ∧ (1/2 : ℚ) < 1) ∧
      (0 ≤ (placeShape onePool wOpts4 (constRand (1/2)) 0).rotation ∧
        (placeShape onePool wOpts4 (constRand (1/2)) 0).rotation < 360) ∧
      (wOpts4.enableRotation = false →
        (placeShape onePool wOpts4 (constRand (1/2)) 0).rotation = 0) :=
  ⟨⟨by norm_num, by norm_num⟩,
   c7_rotation_range onePool (constRand (1/2)) wOpts4
     (constRand_inRange (1/2) (by norm_num) (by norm_num))
     (placeShape onePool wOpts4 (constRand (1/2)) 0)
     (by rw [generatePatternLayout_of_ne _ _ _ (by decide)]
         exact List.mem_map.mpr ⟨0, List.mem_range.mpr (by decide), rfl⟩)⟩

/-- C6: every placement of an asset with positive finite intrinsic
dimensions has positive scale, and that scale times the larger intrinsic
dimension is exactly cellSize times 0.6, where cellSize is the canvas
size over the ceiling of the square root of the shape count. -/
theorem c6_scale_target (shapes : List ShapeAsset) (r : RandomSource)
    (opts : PatternOptions) (p : PlacedShape)
    (hp : p ∈ generatePatternLayout shapes r opts) (w h : ℚ)
    (hw : p.asset.width = JsNum.num w) (hh : p.asset.height = JsNum.num h)
    (hw0 : 0 < w) (_hh0 : 0 < h) (hcv : 0 < opts.canvasSize) :
    jsIsPos p.scale ∧
      jsMul p.scale (jsMax p.asset.width p.asset.height) =
        JsNum.num (cellSizeOf opts * (3/5)) := by
  obtain ⟨hne, i, hi, hpi⟩ := mem_generatePatternLayout shapes r opts p hp
  have hcell : 0 < cellSizeOf opts := cellSizeOf_pos opts hcv (by omega)
  have hscale : p.scale =
      jsDiv (JsNum.num (cellSizeOf opts * (3/5)))
        (jsMax p.asset.width p.asset.height) := by
    rw [hpi]; rfl
  rw [hscale, hw, hh]
  have hm0 : 0 < max w h := lt_of_lt_of_le hw0 (le_max_left w h)
  have hmne : max w h ≠ 0 := ne_of_gt hm0
  have ht : 0 < cellSizeOf opts * (3/5 : ℚ) := by positivity
  constructor
  · simp only [jsMax, jsDiv, if_neg hmne, jsIsPos]
    exact div_pos ht hm0
  · simp only [jsMax, jsDiv, if_neg hmne, jsMul]
    rw [div_mul_cancel₀ _ hmne]

/-- C6 witness: scenario A of the spec: a 200 by 100 asset on a 400
canvas with four shapes gets scale 0.6, and scale times 200 is the cell
size 200 times 0.6. -/
theorem c6_witness :
    (0 : ℚ) < 200 ∧ (0 : ℚ) < 100 ∧
      jsIsPos (placeShape [wAsset] wOpts4 (constRand 0) 0).scale ∧
      jsMul (placeShape [wAsset] wOpts4 (constRand 0) 0).scale
          (jsMax (placeShape [wAsset] wOpts4 (constRand 0) 0).asset.width
            (placeShape [wAsset] wOpts4 (constRand 0) 0).asset.height) =
        JsNum.num (cellSizeOf wOpts4 * (3/5)) := by
  have hasset : (placeShape [wAsset] wOpts4 (constRand 0) 0).asset = wAsset := by
    simp [placeShape, constRand]
  refine ⟨by norm_num, by norm_num, ?_⟩
  exact c6_scale_target [wAsset] (constRand 0) wOpts4
    (placeShape [wAsset] wOpts4 (constRand 0) 0)
    (by rw [generatePatternLayout_of_ne _ _ _ (by decide)]
        exact List.mem_map.mpr ⟨0, List.mem_range.mpr (by decide), rfl⟩)
    200 100 (by rw [hasset]; rfl) (by rw [hasset]; rfl) (by norm_num)
    (by norm_num) (by norm_num [wOpts4])

/-- C3 (amended): the i-th placement's unjittered base center is exactly
its grid cell's geometric center, and the jitter deviates from it, in
each axis, by at least minus half of cellSize times offsetIntensity and
by strictly less than plus half of it whenever that bound is positive;
when the bound is zero the placement sits exactly on the base center.
The deviation can reach the lower endpoint exactly (when Math.random
returns 0), so the deviation is not strictly below the bound in absolute
value. -/
theorem c3_jitter_amended (shapes : List ShapeAsset) (r : RandomSource)
    (opts : PatternOptions) (hr : r.InRange) (hoff : 0 ≤ opts.offsetIntensity)
    (hcv : 0 < opts.canvasSize) (i : ℕ)
    (hi : i < (generatePatternLayout shapes r opts).length) :
    (-(maxOffsetOf opts / 2) ≤
        ((generatePatternLayout shapes r opts).get ⟨i, hi⟩).x -
          baseCenterX opts i ∧
      -(maxOffsetOf opts / 2) ≤
        ((generatePatternLayout shapes r opts).get ⟨i, hi⟩).y -
          baseCenterY opts i) ∧
    (0 < maxOffsetOf opts →
      ((generatePatternLayout shapes r opts).get ⟨i, hi⟩).x -
          baseCenterX opts i < maxOffsetOf opts / 2 ∧
        ((generatePatternLayout shapes r opts).get ⟨i, hi⟩).y -
          baseCenterY opts i < maxOffsetOf opts / 2) ∧
    (maxOffsetOf opts = 0 →
      ((generatePatternLayout shapes r opts).get ⟨i, hi⟩).x = baseCenterX opts i ∧
        ((generatePatternLayout shapes r opts).get ⟨i, hi⟩).y = baseCenterY opts i) := by
  have hm0 : 0 ≤ maxOffsetOf opts := by
    unfold maxOffsetOf cellSizeOf
    have : (0 : ℚ) ≤ (gridSizeOf opts : ℚ) := Nat.cast_nonneg _
    positivity
  have hx : ((generatePatternLayout shapes r opts).get ⟨i, hi⟩).x -
      baseCenterX opts i = (r.offX i - 1/2) * maxOffsetOf opts := by
    rw [generatePatternLayout_get]
    show baseCenterX opts i + (r.offX i - 1/2) * maxOffsetOf opts -
      baseCenterX opts i = _
    ring
  have hy : ((generatePatternLayout shapes r opts).get ⟨i, hi⟩).y -
      baseCenterY opts i = (r.offY i - 1/2) * maxOffsetOf opts := by
    rw [generatePatternLayout_get]
    show baseCenterY opts i + (r.offY i - 1/2) * maxOffsetOf opts -
      baseCenterY opts i = _
    ring
  have hxlo : (-(1/2) : ℚ) ≤ r.offX i - 1/2 := by
    have := (hr i).2.1.1
    linarith
  have hylo : (-(1/2) : ℚ) ≤ r.offY i - 1/2 := by
    have := (hr i).2.2.1.1
    linarith
  have hxhi : r.offX i - 1/2 < 1/2 := by
    have := (hr i).2.1.2
    linarith
  have hyhi : r.offY i - 1/2 < 1/2 := by
    have := (hr i).2.2.1.2
    linarith
  refine ⟨⟨?_, ?_⟩, fun hm => ⟨?_, ?_⟩, fun hm => ⟨?_, ?_⟩⟩
  · rw [hx]
    calc -(maxOffsetOf opts / 2) = (-(1/2)) * maxOffsetOf opts := by ring
      _ ≤ (r.offX i - 1/2) * maxOffsetOf opts :=
          mul_le_mul_of_nonneg_right hxlo hm0
  · rw [hy]
    calc -(maxOffsetOf opts / 2) = (-(1/2)) * maxOffsetOf opts := by ring
      _ ≤ (r.offY i - 1/2) * maxOffsetOf opts :=
          mul_le_mul_of_nonneg_right hylo hm0
  · rw [hx]
    calc (r.offX i - 1/2) * maxOffsetOf opts < (1/2) * maxOffsetOf opts :=
          mul_lt_mul_of_pos_right hxhi hm
      _ = maxOffsetOf opts / 2 := by ring
  · rw [hy]
    calc (r.offY i - 1/2) * maxOffsetOf opts < (1/2) * maxOffsetOf opts :=
          mul_lt_mul_of_pos_right hyhi hm
      _ = maxOffsetOf opts / 2 := by ring
  · have := hx
    rw [hm, mul_zero] at this
    linarith
  · have := hy
    rw [hm, mul_zero] at this
    linarith

/-- C3 counterexample: with valid options (one shape, offset intensity 1,
canvas 2) and the in-range random draw 0, the single placement's center
deviates from its base center by exactly half of cellSize times
offsetIntensity, so its absolute deviation is not strictly below that
bound as the claim states. -/
theorem c3_counterexample :
    (constRand 0).InRange ∧ (0 : ℤ) < c3Opts.shapeCount ∧
      0 ≤ c3Opts.offsetIntensity ∧ c3Opts.offsetIntensity ≤ 1 ∧
      0 < c3Opts.canvasSize ∧
      ¬ |((generatePatternLayout onePool (constRand 0) c3Opts).getD 0
            defaultPlaced).x - baseCenterX c3Opts 0| <
          maxOffsetOf c3Opts / 2 := by
  refine ⟨constRand_inRange 0 le_rfl (by norm_num), by decide,
    by norm_num [c3Opts], by norm_num [c3Opts], by norm_num [c3Opts], ?_⟩
  have hlist : generatePatternLayout onePool (constRand 0) c3Opts =
      [placeShape onePool c3Opts (constRand 0) 0] := by
    rw [generatePatternLayout_of_ne _ _ _ (by decide)]
    rw [show c3Opts.shapeCount.toNat = 1 from rfl]
    rfl
  rw [hlist]
  have hx : (placeShape onePool c3Opts (constRand 0) 0).x =
      baseCenterX c3Opts 0 + (0 - 1/2) * maxOffsetOf c3Opts := rfl
  have hbase : baseCenterX c3Opts 0 = 1 := by
    norm_num [baseCenterX, cellSizeOf, gridSizeOf, ceilSqrt, c3Opts]
  have hmax : maxOffsetOf c3Opts = 2 := by
    norm_num [maxOffsetOf, cellSizeOf, gridSizeOf, ceilSqrt, c3Opts]
  simp only [List.getD, List.get?, Option.getD]
  rw [hx, hbase, hmax]
  norm_num

/-- Helper for the C3 witness: the concrete layout is non-empty. -/
theorem c3_layout_len :
    0 < (generatePatternLayout onePool (constRand (1/2)) c3Opts).length := by
  rw [generatePatternLayout_of_ne _ _ _ (by decide)]
  rw [List.length_map, List.length_range]
  decide

/-- C3 witness: the amended bounds instantiated at a concrete one-shape
layout with the in-range draw one half. -/
theorem c3_witness :
    (0 ≤ c3Opts.offsetIntensity ∧ 0 < c3Opts.canvasSize) ∧
      ((-(maxOffsetOf c3Opts / 2) ≤
          ((generatePatternLayout onePool (constRand (1/2)) c3Opts).get
              ⟨0, c3_layout_len⟩).x - baseCenterX c3Opts 0 ∧
        -(maxOffsetOf c3Opts / 2) ≤
          ((generatePatternLayout onePool (constRand (1/2)) c3Opts).get
              ⟨0, c3_layout_len⟩).y - baseCenterY c3Opts 0) ∧
      (0 < maxOffsetOf c3Opts →
        ((generatePatternLayout onePool (constRand (1/2)) c3Opts).get
              ⟨0, c3_layout_len⟩).x - baseCenterX c3Opts 0 <
            maxOffsetOf c3Opts / 2 ∧
          ((generatePatternLayout onePool (constRand (1/2)) c3Opts).get
              ⟨0, c3_layout_len⟩).y - baseCenterY c3Opts 0 <
            maxOffsetOf c3Opts / 2) ∧
      (maxOffsetOf c3Opts = 0 →
        ((generatePatternLayout onePool (constRand (1/2)) c3Opts).get
              ⟨0, c3_layout_len⟩).x = baseCenterX c3Opts 0 ∧
          ((generatePatternLayout onePool (constRand (1/2)) c3Opts).get
              ⟨0, c3_layout_len⟩).y = baseCenterY c3Opts 0)) :=
  ⟨⟨by norm_num [c3Opts], by norm_num [c3Opts]⟩,
   c3_jitter_amended onePool (constRand (1/2)) c3Opts
     (constRand_inRange (1/2) (by norm_num) (by norm_num))
     (by norm_num [c3Opts]) (by norm_num [c3Opts]) 0 c3_layout_len⟩

/-- C2 (amended): for every placement whose scale is finite and whose
centering dimensions coincide with the placed asset's intrinsic
dimensions — always the case for raster assets and for vector assets
without a viewBox attribute, and for vector assets whose viewBox third
and fourth components parse to the intrinsic dimensions — the transform
attribute renderToSVG emits is exactly the spec's composition: translate
to the center, rotate, scale, then translate by minus half the intrinsic
dimensions, and the position and rotation values carry two decimal places
while the scale carries four.  (When a viewBox component is zero or
unparseable the emitted centering translate uses the raw component, not
the fallback-resolved intrinsic dimension, so the equality can fail.) -/
theorem c2_transform_amended (p : PlacedShape) (s : ℚ)
    (hs : p.scale = JsNum.num s)
    (hdims : renderDims p = (p.asset.width, p.asset.height)) :
    emittedTransformAttr p = specTransformAttr p ∧
      decimalsLen (toFixedQ 2 p.x) = 2 ∧
      decimalsLen (toFixedQ 2 p.y) = 2 ∧
      decimalsLen (toFixedQ 2 p.rotation) = 2 ∧
      decimalsLen (jsToFixed 4 p.scale) = 4 := by
  refine ⟨?_, toFixedQ_decimalsLen 2 p.x, toFixedQ_decimalsLen 2 p.y,
    toFixedQ_decimalsLen 2 p.rotation, ?_⟩
  · unfold emittedTransformAttr specTransformAttr
    rw [hdims]
  · rw [hs]
    exact toFixedQ_decimalsLen 4 s

/-- Evaluation helper: the default JavaScript rendering of minus fifty. -/
theorem jsStrQ_neg_fifty : jsStrQ (-50 : ℚ) = "-50" := by
  have hden : ((-50 : ℚ)).den = 1 := rfl
  have hnum : ((-50 : ℚ)).num = -50 := rfl
  have hfind : (List.range 40).find?
      (fun k => decide ((((-50 : ℚ)).den : ℤ) ∣ 10 ^ k)) = some 0 := by
    have hfun : (fun k : ℕ => decide ((((-50 : ℚ)).den : ℤ) ∣ 10 ^ k)) =
        (fun k : ℕ => decide (((1 : ℕ) : ℤ) ∣ 10 ^ k)) := rfl
    rw [hfun]
    decide
  have hd50 : natDigits 50 = ['5', '0'] := by
    unfold natDigits
    rw [dif_neg (by norm_num : ¬ (50 : ℕ) < 10)]
    norm_num
    unfold natDigits
    rw [dif_pos (by norm_num : (5 : ℕ) < 10)]
    decide
  unfold jsStrQ
  rw [hfind]
  unfold intStr
  rw [hnum]
  have hab : Int.natAbs (-50) = 50 := rfl
  rw [hab, hd50, if_pos (by norm_num : (-50 : ℤ) < 0)]
  decide

/-- C2 counterexample: a vector asset whose viewBox is 0 0 x 50
normalizes to intrinsic dimensions 100 by 50 (the unparseable third
component falls back to 100), yet renderToSVG centers it by the raw
parsed components, emitting translate(NaN, -25) where the claimed
composition translates by minus half the intrinsic width, -50; the two
transform attributes differ. -/
theorem c2_counterexample :
    extractSVGDimensions (some c2BadElem) = (JsNum.num 100, JsNum.num 50) ∧
      emittedTransformAttr c2BadPlace ≠ specTransformAttr c2BadPlace := by
  refine ⟨by decide, ?_⟩
  intro h
  have h1 : (renderDims c2BadPlace).1 = JsNum.nan := rfl
  have h2 : (renderDims c2BadPlace).2 = JsNum.num 50 := rfl
  have hw : c2BadPlace.asset.width = JsNum.num 100 := rfl
  have hh : c2BadPlace.asset.height = JsNum.num 50 := rfl
  unfold emittedTransformAttr specTransformAttr at h
  rw [h1, h2, hw, hh] at h
  have e1 : jsStrNum (jsDiv (jsNeg JsNum.nan) (JsNum.num 2)) = "NaN" := rfl
  have e2 : jsDiv (jsNeg (JsNum.num 100)) (JsNum.num 2) = JsNum.num (-100 / 2) := by
    simp only [jsNeg, jsDiv]
    rw [if_neg (by norm_num : ¬ ((2 : ℚ) = 0))]
  have e4 : (-100 / 2 : ℚ) = -50 := by norm_num
  have e5 : jsStrNum (JsNum.num (-50)) = jsStrQ (-50) := rfl
  rw [e1, e2, e4, e5, jsStrQ_neg_fifty] at h
  have hd := congrArg String.data h
  simp only [String.data_append, List.append_assoc] at hd
  iterate 10 replace hd := List.append_cancel_left hd
  replace hd := List.append_cancel_right hd
  exact absurd hd (by decide)

/-- C2 witness: a finite placement of a raster asset satisfies the
amended transform equation and the decimal-place counts. -/
theorem c2_witness :
    (c2GoodPlace.scale = JsNum.num (3/5) ∧
      renderDims c2GoodPlace = (c2GoodPlace.asset.width, c2GoodPlace.asset.height)) ∧
      (emittedTransformAttr c2GoodPlace = specTransformAttr c2GoodPlace ∧
        decimalsLen (toFixedQ 2 c2GoodPlace.x) = 2 ∧
        decimalsLen (toFixedQ 2 c2GoodPlace.y) = 2 ∧
        decimalsLen (toFixedQ 2 c2GoodPlace.rotation) = 2 ∧
        decimalsLen (jsToFixed 4 c2GoodPlace.scale) = 4) :=
  ⟨⟨rfl, rfl⟩, c2_transform_amended c2GoodPlace (3/5) rfl rfl⟩

/-- The source's or-else-100 on a parsed viewBox component agrees with
the spec-modelled per-component resolution. -/
theorem jsOr_nthNum_spec (l : List JsNum) (i : ℕ) :
    jsOr (nthNum l i) (.num 100) = specViewBoxComp l i := by
  cases hg : l[i]? with
  | none => simp [jsOr, jsFalsy, nthNum, specViewBoxComp, hg]
  | some j =>
      cases j with
      | num q =>
          by_cases hq : q = 0
          · simp [jsOr, jsFalsy, nthNum, specViewBoxComp, hg, hq]
          · simp [jsOr, jsFalsy, nthNum, specViewBoxComp, hg, hq]
      | nan => simp [jsOr, jsFalsy, nthNum, specViewBoxComp, hg]
      | inf b => simp [jsOr, jsFalsy, nthNum, specViewBoxComp, hg]

/-- C5 (amended): extractSVGDimensions resolves, in priority order:
(1) a present viewBox attribute's third and fourth components, each with
the falsy fallback to 100; (2) otherwise the explicit width and height
attributes, an absent or empty attribute defaulting to 100 while a
present unparseable one stays NaN; (3) 100 by 100 exactly when no svg
root element exists.  This matches the spec-modelled resolution clause
for clause. -/
theorem c5_extract_amended (svg : Option SVGElem) :
    extractSVGDimensions svg = specExtractDims svg := by
  match svg with
  | none => rfl
  | some el =>
      cases hvb : el.viewBoxAttr with
      | none =>
          simp only [extractSVGDimensions, specExtractDims, hvb]
          cases el.widthAttr <;> cases el.heightAttr <;> rfl
      | some s =>
          simp only [extractSVGDimensions, specExtractDims, hvb]
          rw [jsOr_nthNum_spec, jsOr_nthNum_spec]

/-- C5 counterexample: a root with no viewBox and a present unparseable
width attribute (its parseFloat is NaN): both sources are absent or
unparseable, yet the result is NaN by 100, not the claimed 100 by 100. -/
theorem c5_counterexample :
    c5BadElem.viewBoxAttr = none ∧ c5BadElem.widthAttr = some JsNum.nan ∧
      extractSVGDimensions (some c5BadElem) ≠ (JsNum.num 100, JsNum.num 100) ∧
      extractSVGDimensions (some c5BadElem) = (JsNum.nan, JsNum.num 100) := by
  refine ⟨rfl, rfl, ?_, rfl⟩
  decide

/-- Every asset a batch appends is the normalization of a supported file
of the batch at some batch index. -/
theorem mem_loadShapesAux (now : ℕ) (files : List UploadFile) (a : ShapeAsset)
    (ha : a ∈ (loadShapesAux now 0 files).1) :
    ∃ i f, f ∈ files ∧ supportedFile f = true ∧ a = normalizeAsset now i f := by
  rw [loadShapesAux_fst] at ha
  obtain ⟨⟨i, f⟩, hp, hnf⟩ := List.mem_filterMap.mp ha
  obtain ⟨-, -, heq⟩ := List.mem_enumFrom hp
  have hfmem : f ∈ files := by
    rw [heq]
    exact List.getElem_mem _
  unfold normalizeFile at hnf
  by_cases hs : supportedFile f
  · rw [if_pos hs] at hnf
    exact ⟨i, f, hfmem, hs, (Option.some.inj hnf).symm⟩
  · rw [if_neg hs] at hnf
    exact absurd hnf (by simp)

/-- The or-else-100 fallback of the viewBox path turns any positive or
falsy component into a positive dimension. -/
theorem goodJs_jsOr_pos (c : JsNum) (hc : goodJs c) :
    jsIsPos (jsOr c (.num 100)) := by
  rcases hc with hpos | rfl | rfl
  · cases c with
    | num q =>
        simp only [jsIsPos] at hpos
        have hq : q ≠ 0 := ne_of_gt hpos
        simp [jsOr, jsFalsy, hq, jsIsPos, hpos]
    | nan => simp [jsIsPos] at hpos
    | inf b =>
        simp only [jsIsPos] at hpos
        subst hpos
        simp [jsOr, jsFalsy, jsIsPos]
  · norm_num [jsOr, jsFalsy, jsIsPos]
  · norm_num [jsOr, jsFalsy, jsIsPos]

/-- A normalized asset from a file in the amended scope has positive
width and height. -/
theorem normalizeAsset_dims_pos (now i : ℕ) (f : UploadFile)
    (hok : fileDimsOK f) :
    jsIsPos (normalizeAsset now i f).width ∧
      jsIsPos (normalizeAsset now i f).height := by
  by_cases hs : strContains f.fileType "svg" = true
  · have hw : (normalizeAsset now i f).width =
        (extractSVGDimensions (f.svgText.getD none)).1 := by
      unfold normalizeAsset
      rw [if_pos hs]
    have hh : (normalizeAsset now i f).height =
        (extractSVGDimensions (f.svgText.getD none)).2 := by
      unfold normalizeAsset
      rw [if_pos hs]
    rw [hw, hh]
    cases hdoc : f.svgText.getD none with
    | none => constructor <;> norm_num [extractSVGDimensions, jsIsPos]
    | some el =>
        have hel := hok.1 hs el hdoc
        cases hvb : el.viewBoxAttr with
        | some s =>
            rw [hvb] at hel
            simp only [extractSVGDimensions, hvb]
            exact ⟨goodJs_jsOr_pos _ hel.1, goodJs_jsOr_pos _ hel.2⟩
        | none =>
            rw [hvb] at hel
            simp only [extractSVGDimensions, hvb]
            constructor
            · cases hwa : el.widthAttr with
              | none => norm_num [jsIsPos]
              | some w => simpa using hel.1 w hwa
            · cases hha : el.heightAttr with
              | none => norm_num [jsIsPos]
              | some h => simpa using hel.2 h hha
  · have hw : (normalizeAsset now i f).width = JsNum.num f.imgW := by
      unfold normalizeAsset
      rw [if_neg hs]
    have hh : (normalizeAsset now i f).height = JsNum.num f.imgH := by
      unfold normalizeAsset
      rw [if_neg hs]
    have hs' : strContains f.fileType "svg" = false := by
      simpa using hs
    obtain ⟨h1, h2⟩ := hok.2 hs'
    rw [hw, hh]
    exact ⟨h1, h2⟩

/-- C4 (amended): every asset loadShapes appends has positive width and
height provided each vector file's viewBox third and fourth components
are positive or falsy (zero, NaN or missing components fall back to 100)
and its explicit width and height attributes, when present, parse to
positive values, and each raster file decodes to positive dimensions.
Without that proviso the invariant fails: a parseable zero or an
unparseable width or height attribute is stored as is (0 or NaN), because
only the viewBox path and the absent-attribute default fall back to
100. -/
theorem c4_dims_amended (now : ℕ) (files : List UploadFile)
    (pool : List ShapeAsset)
    (hpool : ∀ a ∈ pool, jsIsPos a.width ∧ jsIsPos a.height)
    (hfiles : ∀ f ∈ files, fileDimsOK f) :
    ∀ a ∈ (loadShapes now files pool).1,
      jsIsPos a.width ∧ jsIsPos a.height := by
  intro a ha
  unfold loadShapes at ha
  rcases List.mem_append.mp ha with hmem | hmem
  · exact hpool a hmem
  · obtain ⟨i, f, hf, -, rfl⟩ := mem_loadShapesAux now files a hmem
    exact normalizeAsset_dims_pos now i f (hfiles f hf)

/-- C4 counterexample: a supported vector upload with no viewBox and an
explicit zero width attribute enters the pool with width 0, refuting the
claim that every appended asset has positive dimensions. -/
theorem c4_counterexample :
    supportedFile c4BadFile = true ∧
      ¬ ∀ a ∈ (loadShapes 0 [c4BadFile] []).1,
        jsIsPos a.width ∧ jsIsPos a.height := by
  constructor
  · decide
  · decide

/-- C4 witness: a batch holding one well-formed vector file (viewBox
0 0 50 50) yields an asset with positive dimensions through the amended
theorem. -/
theorem c4_witness :
    jsIsPos (normalizeAsset 3 0 goodSvgFile).width ∧
      jsIsPos (normalizeAsset 3 0 goodSvgFile).height :=
  c4_dims_amended 3 [goodSvgFile] []
    (fun a ha => absurd ha (List.not_mem_nil a))
    (by
      intro f hf
      rw [List.mem_singleton] at hf
      subst hf
      constructor
      · intro hsvg el hel
        have hel' : el = goodElem := by
          have hg : goodSvgFile.svgText.getD none = some goodElem := rfl
          rw [hg] at hel
          exact (Option.some.inj hel).symm
        subst hel'
        exact ⟨Or.inl (by norm_num [nthNum, goodElem, jsIsPos]),
          Or.inl (by norm_num [nthNum, goodElem, jsIsPos])⟩
      · intro hpng
        exact absurd hpng (by decide))
    (normalizeAsset 3 0 goodSvgFile)
    (by
      unfold loadShapes
      rw [List.nil_append, loadShapesAux_fst]
      have hn : normalizeFile 3 0 goodSvgFile = some (normalizeAsset 3 0 goodSvgFile) := by
        unfold normalizeFile
        rw [if_pos (by decide)]
      simp [List.enumFrom, hn])

/-- C9: a file whose media kind matches neither svg nor png is rejected
per-file with a user-visible alert and does not abort the batch: the pool
receives exactly the normalizations of the batch's accepted files, in
batch order, after the existing pool; the rejected file's alert message
is raised; and every appended asset comes from a supported file, so no
rejected file reaches the pool. -/
theorem c9_batch_isolation (now : ℕ) (files : List UploadFile)
    (pool : List ShapeAsset) (j : ℕ) (hj : j < files.length)
    (hbad : supportedFile (files.get ⟨j, hj⟩) = false) :
    (loadShapes now files pool).1 =
      pool ++ files.enum.filterMap (fun q => normalizeFile now q.1 q.2) ∧
      ("Unsupported file type: " ++ (files.get ⟨j, hj⟩).name) ∈
        (loadShapes now files pool).2 ∧
      ∀ a ∈ (loadShapes now files pool).1,
        a ∈ pool ∨ ∃ i f, (i, f) ∈ files.enum ∧ supportedFile f = true ∧
          a = normalizeAsset now i f := by
  have henum : files.enum = List.enumFrom 0 files := rfl
  refine ⟨?_, ?_, ?_⟩
  · unfold loadShapes
    rw [loadShapesAux_fst, henum]
  · unfold loadShapes
    rw [loadShapesAux_snd]
    refine List.mem_map.mpr ⟨files.get ⟨j, hj⟩, ?_, rfl⟩
    refine List.mem_filter.mpr ⟨List.get_mem files j hj, ?_⟩
    rw [hbad]
    rfl
  · intro a ha
    unfold loadShapes at ha
    rcases List.mem_append.mp ha with hmem | hmem
    · exact Or.inl hmem
    · rw [loadShapesAux_fst] at hmem
      obtain ⟨⟨i, f⟩, hp, hnf⟩ := List.mem_filterMap.mp hmem
      unfold normalizeFile at hnf
      by_cases hsup : supportedFile f
      · rw [if_pos hsup] at hnf
        exact Or.inr ⟨i, f, henum ▸ hp, hsup, (Option.some.inj hnf).symm⟩
      · rw [if_neg hsup] at hnf
        exact absurd hnf (by simp)

/-- C9 witness: a batch of one valid vector file followed by a plain-text
file: the pool gains exactly the vector asset, the text file's alert is
raised, and every appended asset comes from a supported file. -/
theorem c9_witness :
    supportedFile c9PlainFile = false ∧
      ((loadShapes 7 [goodSvgFile, c9PlainFile] []).1 =
          [] ++ ([goodSvgFile, c9PlainFile].enum.filterMap
            (fun q => normalizeFile 7 q.1 q.2)) ∧
        ("Unsupported file type: " ++
            ([goodSvgFile, c9PlainFile].get ⟨1, by decide⟩).name) ∈
          (loadShapes 7 [goodSvgFile, c9PlainFile] []).2 ∧
        ∀ a ∈ (loadShapes 7 [goodSvgFile, c9PlainFile] []).1,
          a ∈ ([] : List ShapeAsset) ∨
            ∃ i f, (i, f) ∈ [goodSvgFile, c9PlainFile].enum ∧
              supportedFile f = true ∧ a = normalizeAsset 7 i f) :=
  ⟨by decide,
   c9_batch_isolation 7 [goodSvgFile, c9PlainFile] [] 1 (by decide) (by decide)⟩

end BrandPattern
